import Mathlib

/-!
Shallow embedding of the HTTP handlers of the LPU timetable service:
`src/api/refresh.js` (POST /refresh) and `src/api/timetable.js`
(GET /timetable).

Modelling conventions:
* Instants and ISO-8601 timestamp strings are both represented by their
  epoch-millisecond value (an `Int`): the code only converts between the two
  via `new Date(ms).toISOString()` and `new Date(iso).getTime()`, which are
  mutually inverse on valid instants, so both representations collapse to the
  millisecond value.  Stored timestamp strings are assumed non-empty and
  parseable (they are only ever written by `toISOString()`), so a present
  `timestamp` field is JS-truthy.
* `Math.floor(x / c)` for a positive literal `c` is floor division, which is
  `Int.ediv` (Lean's `/` on `Int`) for a positive divisor; `x % c` in JS is
  the truncated remainder, which agrees with `Int.emod` (Lean's `%`) whenever
  `x ≥ 0`, and every `%` in the translated code runs on a positive operand
  (`remainingMs ≥ 1` whenever the rate-limit branch executes).
* The JS truthiness tests of the handlers are translated exactly: a missing
  field is `none`; a numeric field holding `0` is falsy; an array field is
  always truthy (even when the array is empty).
* The server modules `src/modules/{cache,timetable,auth,notifications}.js`
  are not part of the sources under verification; the handlers' calls into
  them (`loadTimetableCache`, `fetchFreshTimetableData`,
  `detectScheduleChangesWithPersistence`, `sendScheduleChangeNotifications`,
  `saveTimetableCache`, `processClassItem`) are modelled as inputs: each
  call's outcome (value returned or exception thrown) parameterises the
  handler model.  Raw class items and schedule changes are opaque to the
  handler logic, so they are modelled as `Nat` identifiers.
-/

namespace LpuTimetable

/-- Raw class entries are opaque to both handlers (they are only mapped over
with `processClassItem` and counted), so they are modelled as bare
identifiers. -/
abbrev ClassItem := Nat

/-- Detected schedule changes are opaque to the refresh handler (passed to the
notifier and echoed in the response), so they are modelled as bare
identifiers. -/
abbrev Change := Nat

/-- The record resolved by `loadTimetableCache`.  `lastUpdate` is a
millisecond number, `timestamp` an ISO string (modelled as the millisecond
value it denotes), `data` the stored array of raw class entries.  A `none`
field is absent (JS `undefined`). -/
structure CacheData where
  lastUpdate : Option Int
  timestamp : Option Int
  data : Option (List ClassItem)
deriving Repr, DecidableEq

/-- Result of `detectScheduleChangesWithPersistence` on the success path:
`{ hasChanges, changes }`. -/
structure ChangeResult where
  hasChanges : Bool
  changes : List Change
deriving Repr, DecidableEq

/-- The `remainingTime` object of the 429 body (refresh.js lines 59-63). -/
structure RemainingTime where
  minutes : Int
  seconds : Int
  totalSeconds : Int
deriving Repr, DecidableEq

/-- The full JSON body of the 429 rate-limited response (refresh.js lines
55-66); its fields are exactly the fields of the object literal there. -/
structure RateLimitBody where
  success : Bool
  rateLimited : Bool
  message : String
  remainingTime : RemainingTime
  lastUpdated : Int
  nextRefreshAllowed : Int
deriving Repr, DecidableEq

/-- Responses of the refresh handler: 429 rate-limited (with its body),
200 success (refresh.js lines 93-100: `{success:true, data, cached:false,
timestamp, classCount, changes}`), or the catch-all 500
(`{success:false, error}`, lines 105-109; the `details` field is present only
with `NODE_ENV === "development"` and is not modelled). -/
inductive RefreshResponse where
  | rateLimited (body : RateLimitBody)
  | ok (data : List ClassItem) (cached : Bool) (timestamp : Int)
      (classCount : Nat) (changes : Option (List Change))
  | err (error : String)
deriving Repr, DecidableEq

/-- HTTP status code the refresh handler attaches to each response shape. -/
def refreshStatus : RefreshResponse → Nat
  | .rateLimited _ => 429
  | .ok .. => 200
  | .err _ => 500

/-- Which of the three collaborator side effects the refresh handler actually
invoked during one request. -/
structure RefreshEffects where
  fetchCalled : Bool
  saveCalled : Bool
  notifyCalled : Bool
deriving Repr, DecidableEq

/-- Outcomes of the collaborator calls the refresh handler can make, plus the
pure per-item processor.  `loadError`/`saveError` are `some e` when the call
throws `e`; `fetchResult`, `detectResult` and `notifyResult` either return a
value or throw. -/
structure Collab where
  loadError : Option String
  fetchResult : Except String (List ClassItem)
  detectResult : List ClassItem → Except String ChangeResult
  notifyResult : List Change → Except String Unit
  saveError : Option String
  proc : ClassItem → ClassItem

/-- The effective milliseconds value the rate-limit gate compares against:
refresh.js line 38 guards on the truthiness of
`cacheData.lastUpdate || cacheData.timestamp` and line 40 computes
`cacheData.lastUpdate || new Date(cacheData.timestamp).getTime()`.
A stored `lastUpdate` of `0` is JS-falsy, so it falls through to the
timestamp; `none` means the guard fails and the gate is skipped. -/
def effLastUpdate (c : CacheData) : Option Int :=
  match c.lastUpdate with
  | some n => if n = 0 then c.timestamp else some n
  | none => c.timestamp

/-- The pluralising message of the 429 body (refresh.js line 58). -/
def mkRateLimitMessage (remainingMinutes remainingSeconds : Int) : String :=
  "Please wait " ++ toString remainingMinutes ++ " minute" ++
    (if remainingMinutes ≠ 1 then "s" else "") ++ " " ++
    toString remainingSeconds ++ " second" ++
    (if remainingSeconds ≠ 1 then "s" else "") ++ " before refreshing again"

/-- The 429 body built at refresh.js lines 49-66 from the stored update time
and the current time.  `remainingMs ≥ 1` whenever this branch runs (the gate
requires `diffMs < 600000`), so `/` and `%` coincide with JS `Math.floor`
division and `%` there. -/
def rlBody (lastUpdateMs now : Int) : RateLimitBody :=
  let diffMs := now - lastUpdateMs
  let remainingMs := 10 * 60000 - diffMs
  let remainingMinutes := remainingMs / 60000
  let remainingSeconds := (remainingMs % 60000) / 1000
  { success := false
    rateLimited := true
    message := mkRateLimitMessage remainingMinutes remainingSeconds
    remainingTime :=
      { minutes := remainingMinutes
        seconds := remainingSeconds
        totalSeconds := remainingMs / 1000 }
    lastUpdated := lastUpdateMs
    nextRefreshAllowed := lastUpdateMs + 10 * 60000 }

/-- The rate-limit gate (refresh.js lines 37-68): `some body` when the request
is rejected with 429, `none` when control continues to the upstream fetch. -/
def refreshGate (cache : Option CacheData) (now : Int) : Option RateLimitBody :=
  match cache with
  | none => none
  | some c =>
    match effLastUpdate c with
    | none => none
    | some lastUpdateMs =>
      if (now - lastUpdateMs) / 60000 < 10 then some (rlBody lastUpdateMs now)
      else none

/-- Modelled from the spec: `saveTimetableCache` lives in
`src/modules/cache.js`, which is not among the sources; spec section 4.1 step 6
says the refresh persists "new snapshot + captured timestamp via CacheStore
(atomic replace)", so the record written wholly replaces the prior one and
carries the capture time as both the millisecond `lastUpdate` and the ISO
`timestamp`, with the fetched data as `data`. -/
def savedRecord (freshData : List ClassItem) (now : Int) : CacheData :=
  { lastUpdate := some now, timestamp := some now, data := some freshData }

/-- One execution of the refresh handler (refresh.js lines 31-110) given the
collaborator outcomes `col`, the current time `now`, and the cache state
`cache` that `loadTimetableCache` resolves to.  Returns the response, the
side effects performed, and the cache state after the request.  Every thrown
collaborator error lands in the catch-all at line 101 and becomes a 500.
A failing `saveTimetableCache` is spec-modelled as atomic (spec section 4.3):
it leaves the stored record unchanged. -/
def refreshRun (col : Collab) (now : Int) (cache : Option CacheData) :
    RefreshResponse × RefreshEffects × Option CacheData :=
  match col.loadError with
  | some e => (.err e, ⟨false, false, false⟩, cache)
  | none =>
    match refreshGate cache now with
    | some body => (.rateLimited body, ⟨false, false, false⟩, cache)
    | none =>
      match col.fetchResult with
      | .error e => (.err e, ⟨true, false, false⟩, cache)
      | .ok freshData =>
        match col.detectResult freshData with
        | .error e => (.err e, ⟨true, false, false⟩, cache)
        | .ok ch =>
          match (if ch.hasChanges then col.notifyResult ch.changes
                 else Except.ok ()) with
          | .error e => (.err e, ⟨true, false, ch.hasChanges⟩, cache)
          | .ok _ =>
            match col.saveError with
            | some e => (.err e, ⟨true, true, ch.hasChanges⟩, cache)
            | none =>
              let processed := freshData.map col.proc
              (.ok processed false now processed.length
                  (if ch.hasChanges then some ch.changes else none),
               ⟨true, true, ch.hasChanges⟩,
               some (savedRecord freshData now))

/-- Responses of the timetable handler: 404 when no usable cache exists
(timetable.js lines 29-35), 200 with the processed cached data (lines 51-57),
or the catch-all 500 (lines 58-64). -/
inductive TimetableResponse where
  | notFound (error : String) (hint : String)
  | ok (data : List ClassItem) (cached : Bool) (timestamp : Int)
      (classCount : Nat)
  | err (error : String)
deriving Repr, DecidableEq

/-- HTTP status code the timetable handler attaches to each response shape. -/
def timetableStatus : TimetableResponse → Nat
  | .notFound .. => 404
  | .ok .. => 200
  | .err _ => 500

/-- Error string of the 404 body (timetable.js line 32). -/
def noDataError : String := "No timetable data. Please refresh first."

/-- Hint string of the 404 body (timetable.js line 33). -/
def noDataHint : String := "Click the refresh button (🔄) to fetch your timetable."

/-- The timestamp the 200 body reports (timetable.js line 49):
`cacheData.timestamp || new Date(cacheData.lastUpdate || Date.now()).toISOString()`.
A stored `lastUpdate` of `0` is JS-falsy and falls through to `Date.now()`. -/
def cacheTimestamp (c : CacheData) (now : Int) : Int :=
  match c.timestamp with
  | some ts => ts
  | none =>
    match c.lastUpdate with
    | some n => if n = 0 then now else n
    | none => now

/-- One execution of the timetable handler (timetable.js lines 14-65) given
the outcome of `loadTimetableCache` (`loadError` is `some e` when it throws,
otherwise it resolves to `cache`), the per-item processor, and the current
time.  The second component is the cache state after the request: the handler
performs no cache operation besides the load, so it is returned as-is on
every path — the guard at line 29 rejects an absent record or an absent
`data` field, and a present array (even `[]`) is JS-truthy and is served. -/
def timetableRun (loadError : Option String) (proc : ClassItem → ClassItem)
    (now : Int) (cache : Option CacheData) :
    TimetableResponse × Option CacheData :=
  match loadError with
  | some e => (.err e, cache)
  | none =>
    match cache with
    | none => (.notFound noDataError noDataHint, cache)
    | some c =>
      match c.data with
      | none => (.notFound noDataError noDataHint, cache)
      | some d =>
        let processed := d.map proc
        (.ok processed true (cacheTimestamp c now) processed.length, cache)

/-! Helper lemmas about the rate-limit gate. -/

/-- The gate's minute test `Math.floor(diffMs/60000) < 10` holds exactly when
the elapsed milliseconds are below the ten-minute cooldown. -/
theorem gate_lt_iff (L now : Int) : (now - L) / 60000 < 10 ↔ now - L < 600000 := by
  rw [Int.ediv_lt_iff_lt_mul (by norm_num : (0 : Int) < 60000)]
  norm_num

/-- A record with an effective update time within the cooldown makes the gate
fire with the corresponding 429 body. -/
theorem refreshGate_hit (c : CacheData) (L now : Int)
    (heff : effLastUpdate c = some L) (hlt : now - L < 600000) :
    refreshGate (some c) now = some (rlBody L now) := by
  simp only [refreshGate, heff, if_pos ((gate_lt_iff L now).mpr hlt)]

/-- A record whose effective update time is at least the cooldown ago does not
trip the gate. -/
theorem refreshGate_pass_of_ge (c : CacheData) (L now : Int)
    (heff : effLastUpdate c = some L) (hge : 600000 ≤ now - L) :
    refreshGate (some c) now = none := by
  simp only [refreshGate, heff]
  exact if_neg (fun hlt => absurd ((gate_lt_iff L now).mp hlt) (not_lt.mpr hge))

/-- A record with no effective update time (no truthy `lastUpdate` nor
`timestamp`) bypasses the gate. -/
theorem refreshGate_pass_of_eff_none (c : CacheData) (now : Int)
    (heff : effLastUpdate c = none) :
    refreshGate (some c) now = none := by
  simp only [refreshGate, heff]

/-- When the gate fires, the refresh handler answers 429 immediately: no
collaborator besides the load runs and the cache state is untouched. -/
theorem refreshRun_rateLimited (col : Collab) (now : Int)
    (cache : Option CacheData) (body : RateLimitBody)
    (hload : col.loadError = none) (hgate : refreshGate cache now = some body) :
    refreshRun col now cache = (.rateLimited body, ⟨false, false, false⟩, cache) := by
  simp only [refreshRun, hload, hgate]

/-- Once the gate lets a request through, the upstream fetch is invoked on
every subsequent control path. -/
theorem fetchCalled_of_gate_none (col : Collab) (now : Int)
    (cache : Option CacheData)
    (hload : col.loadError = none) (hgate : refreshGate cache now = none) :
    (refreshRun col now cache).2.1.fetchCalled = true := by
  simp only [refreshRun, hload, hgate]
  repeat' split
  all_goals rfl

/-- Collaborator outcomes where every call succeeds, the fetch returns two raw
entries, and no schedule changes are detected; used to instantiate theorems at
concrete inputs. -/
def colOk : Collab :=
  { loadError := none
    fetchResult := .ok [1, 2]
    detectResult := fun _ => .ok ⟨false, []⟩
    notifyResult := fun _ => .ok ()
    saveError := none
    proc := id }

/-- A concrete cache record last updated at millisecond 1000. -/
def cAt1000 : CacheData :=
  { lastUpdate := some 1000, timestamp := none, data := some [5] }

/-- Collaborator outcomes whose upstream fetch throws. -/
def colFetchBoom : Collab :=
  { loadError := none
    fetchResult := .error "upstream down"
    detectResult := fun _ => .ok ⟨false, []⟩
    notifyResult := fun _ => .ok ()
    saveError := none
    proc := id }

/-- Collaborator outcomes where the fetch succeeds, changes are detected, and
the notification dispatch throws. -/
def colNotifyBoom : Collab :=
  { loadError := none
    fetchResult := .ok [7]
    detectResult := fun _ => .ok ⟨true, [3]⟩
    notifyResult := fun _ => .error "notify failed"
    saveError := none
    proc := id }

/-- C1: a prior cache record with an effective update time less than ten
minutes before `now` makes POST /refresh answer 429 — the upstream fetch is
not invoked, no save happens and the cache state is unchanged; conversely,
with no prior record, or with an effective update time at least ten minutes
old, the gate does not reject and the upstream fetch is attempted.  (A record
whose `lastUpdate`/`timestamp` fields are both absent carries no update time;
`effLastUpdate` reproduces the handler's JS truthiness test.) -/
theorem c1_rate_limit_gate (col : Collab) (now : Int) (cache : Option CacheData)
    (hload : col.loadError = none) :
    (∀ c L, cache = some c → effLastUpdate c = some L → now - L < 600000 →
      refreshRun col now cache =
        (.rateLimited (rlBody L now), ⟨false, false, false⟩, cache)) ∧
    (cache = none → (refreshRun col now cache).2.1.fetchCalled = true) ∧
    (∀ c L, cache = some c → effLastUpdate c = some L → 600000 ≤ now - L →
      (refreshRun col now cache).2.1.fetchCalled = true) := by
  refine ⟨?_, ?_, ?_⟩
  · intro c L hc heff hlt
    subst hc
    exact refreshRun_rateLimited col now _ _ hload (refreshGate_hit c L now heff hlt)
  · intro hc
    subst hc
    exact fetchCalled_of_gate_none col now none hload rfl
  · intro c L hc heff hge
    subst hc
    exact fetchCalled_of_gate_none col now _ hload
      (refreshGate_pass_of_ge c L now heff hge)

/-- Witness for C1 at a concrete input: five minutes after an update at
millisecond 1000 the request is rejected without any side effect, and eleven
minutes after it the fetch is attempted. -/
theorem c1_rate_limit_gate_witness :
    refreshRun colOk 301000 (some cAt1000) =
      (.rateLimited (rlBody 1000 301000), ⟨false, false, false⟩, some cAt1000) ∧
    (refreshRun colOk 661000 (some cAt1000)).2.1.fetchCalled = true := by
  constructor
  · exact (c1_rate_limit_gate colOk 301000 (some cAt1000) rfl).1 cAt1000 1000
      rfl (by decide) (by decide)
  · exact (c1_rate_limit_gate colOk 661000 (some cAt1000) rfl).2.2 cAt1000 1000
      rfl (by decide) (by decide)

/-- Splitting a millisecond count into total seconds always agrees with the
minute/second decomposition the 429 body computes. -/
theorem sec_decomp (rem : Int) :
    rem / 1000 = 60 * (rem / 60000) + rem % 60000 / 1000 := by
  conv_lhs => rw [← Int.ediv_add_emod rem 60000]
  have h : 60000 * (rem / 60000) + rem % 60000
      = rem % 60000 + 60 * (rem / 60000) * 1000 := by ring
  rw [h, Int.add_mul_ediv_right _ _ (by norm_num : (1000 : Int) ≠ 0)]
  ring

/-- C5: the 429 body is exactly the object literal of refresh.js lines 55-66
(the `RateLimitBody` structure mirrors its fields one for one):
`success:false`, `rateLimited:true`, the pluralised message,
`remainingTime.totalSeconds = Math.floor((600000 - (now-lastUpdate))/1000)`
with `minutes`/`seconds` its minute/second decomposition, `lastUpdated` the
stored update instant and `nextRefreshAllowed` that instant plus ten minutes;
moreover a refresh with no prior record reaches the fetch, a refresh five
minutes after an update is rejected with `totalSeconds = 300`, and a refresh
eleven minutes after an update passes the gate. -/
theorem c5_rate_limit_body_shape (col : Collab) (now L : Int) (c : CacheData)
    (hload : col.loadError = none) (heff : effLastUpdate c = some L) :
    (now - L < 600000 →
      (refreshRun col now (some c)).1 = .rateLimited (rlBody L now) ∧
      (rlBody L now).success = false ∧
      (rlBody L now).rateLimited = true ∧
      (rlBody L now).message = mkRateLimitMessage
        (rlBody L now).remainingTime.minutes (rlBody L now).remainingTime.seconds ∧
      (rlBody L now).remainingTime.totalSeconds = (600000 - (now - L)) / 1000 ∧
      (rlBody L now).remainingTime.minutes = (600000 - (now - L)) / 60000 ∧
      (rlBody L now).remainingTime.seconds = (600000 - (now - L)) % 60000 / 1000 ∧
      (rlBody L now).remainingTime.totalSeconds =
        60 * (rlBody L now).remainingTime.minutes +
          (rlBody L now).remainingTime.seconds ∧
      0 ≤ (rlBody L now).remainingTime.seconds ∧
      (rlBody L now).remainingTime.seconds < 60 ∧
      (rlBody L now).lastUpdated = L ∧
      (rlBody L now).nextRefreshAllowed = L + 600000) ∧
    (refreshRun col 0 none).2.1.fetchCalled = true ∧
    ((refreshRun col (L + 300000) (some c)).1 =
        .rateLimited (rlBody L (L + 300000)) ∧
      (rlBody L (L + 300000)).remainingTime.totalSeconds = 300) ∧
    (refreshRun col (L + 660000) (some c)).2.1.fetchCalled = true := by
  have hnum : ∀ t : Int, 10 * 60000 - (t - L) = 600000 - (t - L) := by
    intro t; norm_num
  refine ⟨?_, ?_, ⟨?_, ?_⟩, ?_⟩
  · intro hlt
    refine ⟨?_, rfl, rfl, rfl, ?_, ?_, ?_, ?_, ?_, ?_, rfl, ?_⟩
    · rw [refreshRun_rateLimited col now _ _ hload (refreshGate_hit c L now heff hlt)]
    · simp only [rlBody, hnum]
    · simp only [rlBody, hnum]
    · simp only [rlBody, hnum]
    · simp only [rlBody]
      exact sec_decomp _
    · simp only [rlBody]
      exact Int.ediv_nonneg
        (Int.emod_nonneg _ (by norm_num : (60000 : Int) ≠ 0)) (by norm_num)
    · simp only [rlBody]
      rw [Int.ediv_lt_iff_lt_mul (by norm_num : (0 : Int) < 1000)]
      calc (10 * 60000 - (now - L)) % 60000
          < 60000 := Int.emod_lt_of_pos _ (by norm_num)
        _ = 60 * 1000 := by norm_num
    · simp only [rlBody]
      norm_num
  · exact fetchCalled_of_gate_none col 0 none hload rfl
  · rw [refreshRun_rateLimited col (L + 300000) _ _ hload
      (refreshGate_hit c L (L + 300000) heff (by omega))]
  · have h300 : 10 * 60000 - (L + 300000 - L) = 300000 := by ring
    simp only [rlBody, h300]
    decide
  · exact fetchCalled_of_gate_none col (L + 660000) _ hload
      (refreshGate_pass_of_ge c L (L + 660000) heff (by omega))

/-- Witness for C5 at a concrete input: an update at millisecond 1000 and a
refresh five minutes later. -/
theorem c5_rate_limit_body_shape_witness :
    (refreshRun colOk 301000 (some cAt1000)).1 = .rateLimited (rlBody 1000 301000) ∧
    (rlBody 1000 301000).remainingTime.totalSeconds = 300 ∧
    (rlBody 1000 301000).nextRefreshAllowed = 601000 ∧
    (refreshRun colOk 0 none).2.1.fetchCalled = true := by
  have h := c5_rate_limit_body_shape colOk 301000 1000 cAt1000 rfl (by decide)
  have h1 := h.1 (by decide)
  refine ⟨h1.1, ?_, ?_, h.2.1⟩
  · rw [h1.2.2.2.2.1]; decide
  · rw [h1.2.2.2.2.2.2.2.2.2.2.2]; decide

/-- A throwing upstream fetch lands in the catch-all: the handler answers 500
with the error message, no save is invoked, and the cache state is
untouched. -/
theorem refreshRun_fetch_error (col : Collab) (now : Int)
    (cache : Option CacheData) (e : String)
    (hload : col.loadError = none) (hgate : refreshGate cache now = none)
    (hfetch : col.fetchResult = .error e) :
    refreshRun col now cache = (.err e, ⟨true, false, false⟩, cache) := by
  simp only [refreshRun, hload, hgate, hfetch]

/-- C2: when the upstream fetch throws, POST /refresh answers 500
`{success:false, error}` (the `.err` response), `saveTimetableCache` is never
invoked, the cache state after the request equals the state before it, and a
GET /timetable issued against the resulting state still serves the prior
snapshot's data with the stored timestamp. -/
theorem c2_upstream_failure_preserves_cache (col : Collab) (now now2 : Int)
    (cache : Option CacheData) (e : String) (proc2 : ClassItem → ClassItem)
    (hload : col.loadError = none) (hgate : refreshGate cache now = none)
    (hfetch : col.fetchResult = .error e) :
    refreshRun col now cache = (.err e, ⟨true, false, false⟩, cache) ∧
    refreshStatus (refreshRun col now cache).1 = 500 ∧
    (∀ c d, cache = some c → c.data = some d →
      (timetableRun none proc2 now2 (refreshRun col now cache).2.2).1 =
        .ok (d.map proc2) true (cacheTimestamp c now2) (d.map proc2).length) := by
  have h := refreshRun_fetch_error col now cache e hload hgate hfetch
  refine ⟨h, by rw [h]; rfl, ?_⟩
  intro c d hc hd
  subst hc
  rw [h]
  simp only [timetableRun, hd]

/-- Witness for C2 at a concrete input: a fetch failure eleven minutes after
an update at millisecond 1000 leaves the prior record servable. -/
theorem c2_upstream_failure_preserves_cache_witness :
    refreshRun colFetchBoom 661000 (some cAt1000) =
      (.err "upstream down", ⟨true, false, false⟩, some cAt1000) ∧
    (timetableRun none id 661000 (refreshRun colFetchBoom 661000 (some cAt1000)).2.2).1 =
      .ok [5] true 1000 1 := by
  have h := c2_upstream_failure_preserves_cache colFetchBoom 661000 661000
    (some cAt1000) "upstream down" id rfl
    (refreshGate_pass_of_ge cAt1000 1000 661000 (by decide) (by decide)) rfl
  exact ⟨h.1, h.2.2 cAt1000 [5] rfl rfl⟩

/-- A throwing notification dispatch is not caught around the call at
refresh.js line 78: it lands in the catch-all, so the handler answers 500,
`saveTimetableCache` (line 82) is never reached, and the cache state is
untouched. -/
theorem refreshRun_notify_error (col : Collab) (now : Int)
    (cache : Option CacheData) (d : List ClassItem) (ch : ChangeResult)
    (e : String)
    (hload : col.loadError = none) (hgate : refreshGate cache now = none)
    (hfetch : col.fetchResult = .ok d) (hdetect : col.detectResult d = .ok ch)
    (hch : ch.hasChanges = true)
    (hnotify : col.notifyResult ch.changes = .error e) :
    refreshRun col now cache = (.err e, ⟨true, false, true⟩, cache) := by
  simp only [refreshRun, hload, hgate, hfetch, hdetect, hch, if_true, hnotify]

/-- C3 (amended): when changes are detected and
`sendScheduleChangeNotifications` throws, the failure propagates — the
handler answers 500 `{success:false, error}`, does not invoke
`saveTimetableCache`, and the prior cache state is unchanged. -/
theorem c3_notify_failure_propagates (col : Collab) (now : Int)
    (cache : Option CacheData) (d : List ClassItem) (ch : ChangeResult)
    (e : String)
    (hload : col.loadError = none) (hgate : refreshGate cache now = none)
    (hfetch : col.fetchResult = .ok d) (hdetect : col.detectResult d = .ok ch)
    (hch : ch.hasChanges = true)
    (hnotify : col.notifyResult ch.changes = .error e) :
    refreshRun col now cache = (.err e, ⟨true, false, true⟩, cache) ∧
    refreshStatus (refreshRun col now cache).1 = 500 ∧
    (refreshRun col now cache).2.1.saveCalled = false := by
  have h := refreshRun_notify_error col now cache d ch e hload hgate hfetch
    hdetect hch hnotify
  exact ⟨h, by rw [h]; rfl, by rw [h]⟩

/-- Witness for C3's amended claim at a concrete input. -/
theorem c3_notify_failure_propagates_witness :
    refreshRun colNotifyBoom 0 none =
      (.err "notify failed", ⟨true, false, true⟩, none) := by
  exact (c3_notify_failure_propagates colNotifyBoom 0 none [7] ⟨true, [3]⟩
    "notify failed" rfl rfl rfl rfl rfl rfl).1

/-- Counterexample to C3 as stated: with a prior snapshot absent, a
successful fetch, detected changes, and a notification dispatch that throws,
the claim predicts a 200 `{success:true}` response and a persisted snapshot;
the handler instead answers 500 and never invokes `saveTimetableCache` — the
notification failure is not swallowed. -/
theorem c3_counterexample :
    (refreshRun colNotifyBoom 0 none).1 = .err "notify failed" ∧
    refreshStatus (refreshRun colNotifyBoom 0 none).1 = 500 ∧
    (refreshRun colNotifyBoom 0 none).2.1.saveCalled = false ∧
    (refreshRun colNotifyBoom 0 none).2.2 = none := ⟨rfl, rfl, rfl, rfl⟩

/-- C6: GET /timetable with no cached record answers 404 with the fixed error
and hint strings of timetable.js lines 30-34, and the response is never a 200
success — in particular never an empty class list wrapped in success. -/
theorem c6_no_cache_not_found (proc : ClassItem → ClassItem) (now : Int) :
    timetableRun none proc now none = (.notFound noDataError noDataHint, none) ∧
    timetableStatus (timetableRun none proc now none).1 = 404 ∧
    (∀ d cached ts n, (timetableRun none proc now none).1 ≠ .ok d cached ts n) := by
  refine ⟨rfl, rfl, ?_⟩
  intro d cached ts n h
  exact TimetableResponse.noConfusion h

/-- C10: with a successful load, GET /timetable answers the 404 NotFound body
exactly when the record is absent or its `data` field is absent; a record
whose `data` is the empty array is JS-truthy, so the handler instead answers
200 with `data = []` and `classCount = 0`. -/
theorem c10_empty_data_success (proc : ClassItem → ClassItem) (now : Int)
    (lu ts : Option Int) :
    (∀ cache : Option CacheData,
      ((timetableRun none proc now cache).1 = .notFound noDataError noDataHint ↔
        cache = none ∨ ∃ c, cache = some c ∧ c.data = none)) ∧
    timetableRun none proc now (some ⟨lu, ts, some []⟩) =
      (.ok [] true (cacheTimestamp ⟨lu, ts, some []⟩ now) 0,
       some ⟨lu, ts, some []⟩) := by
  constructor
  · intro cache
    constructor
    · intro h
      match cache with
      | none => exact Or.inl rfl
      | some c =>
        match hd : c.data with
        | none => exact Or.inr ⟨c, rfl, hd⟩
        | some d =>
          simp only [timetableRun, hd] at h
          exact TimetableResponse.noConfusion h
    · rintro (rfl | ⟨c, rfl, hd⟩)
      · rfl
      · simp only [timetableRun, hd]
  · rfl

/-- A record that stores data but neither a `timestamp` nor a `lastUpdate`. -/
def cNoTimes : CacheData := { lastUpdate := none, timestamp := none, data := some [4] }

/-- Counterexample to C8 as stated: on a record carrying data but neither
stored time field, the 200 body's timestamp is the freshly generated request
time `Date.now()` (here millisecond 777), not a stored cache timestamp — the
record stores none at all. -/
theorem c8_counterexample :
    (timetableRun none id 777 (some cNoTimes)).1 = .ok [4] true 777 1 ∧
    cNoTimes.timestamp = none ∧ cNoTimes.lastUpdate = none := ⟨rfl, rfl, rfl⟩

/-- C8 (amended): GET /timetable is a pure read — the cache state after the
request equals the state before it (its only cache operation is the load), so
an interleaved GET never changes the outcome of a later POST /refresh; the
200 body's timestamp is the stored `timestamp` when present, else derived
from a stored non-zero `lastUpdate`, and only a record carrying neither
(both JS-falsy) makes the handler fall back to the current time. -/
theorem c8_pure_read (proc : ClassItem → ClassItem) (now t : Int)
    (cache : Option CacheData) (col : Collab) (le : Option String) :
    (timetableRun le proc now cache).2 = cache ∧
    refreshRun col t (timetableRun le proc now cache).2 = refreshRun col t cache ∧
    (∀ c d ts, cache = some c → c.data = some d → c.timestamp = some ts →
      (timetableRun none proc now cache).1 =
        .ok (d.map proc) true ts (d.map proc).length) ∧
    (∀ c d lu, cache = some c → c.data = some d → c.timestamp = none →
      c.lastUpdate = some lu → lu ≠ 0 →
      (timetableRun none proc now cache).1 =
        .ok (d.map proc) true lu (d.map proc).length) ∧
    (∀ c d, cache = some c → c.data = some d → c.timestamp = none →
      (c.lastUpdate = none ∨ c.lastUpdate = some 0) →
      (timetableRun none proc now cache).1 =
        .ok (d.map proc) true now (d.map proc).length) := by
  have hframe : (timetableRun le proc now cache).2 = cache := by
    cases le with
    | some e => rfl
    | none =>
      cases cache with
      | none => rfl
      | some c =>
        cases hd : c.data with
        | none => simp only [timetableRun, hd]
        | some d => simp only [timetableRun, hd]
  refine ⟨hframe, by rw [hframe], ?_, ?_, ?_⟩
  · intro c d ts hc hd hts
    subst hc
    simp only [timetableRun, hd, cacheTimestamp, hts]
  · intro c d lu hc hd hts hlu hne
    subst hc
    simp only [timetableRun, hd, cacheTimestamp, hts, hlu, if_neg hne]
  · intro c d hc hd hts hlu
    subst hc
    rcases hlu with hlu | hlu
    · simp only [timetableRun, hd, cacheTimestamp, hts, hlu]
    · simp [timetableRun, hd, cacheTimestamp, hts, hlu]

/-- A 429 response can only have come from the gate: every other control path
of the refresh handler answers `.ok` or `.err`. -/
theorem gate_of_rateLimited (col : Collab) (now : Int) (cache : Option CacheData)
    (body : RateLimitBody)
    (h : (refreshRun col now cache).1 = .rateLimited body) :
    refreshGate cache now = some body := by
  cases hl : col.loadError with
  | some e =>
    simp only [refreshRun, hl] at h
    exact RefreshResponse.noConfusion h
  | none =>
    cases hg : refreshGate cache now with
    | some b =>
      simp only [refreshRun, hl, hg] at h
      rw [RefreshResponse.rateLimited.inj h]
    | none =>
      simp only [refreshRun, hl, hg] at h
      cases hf : col.fetchResult with
      | error e =>
        simp only [hf] at h
        exact RefreshResponse.noConfusion h
      | ok d =>
        simp only [hf] at h
        cases hd : col.detectResult d with
        | error e =>
          simp only [hd] at h
          exact RefreshResponse.noConfusion h
        | ok ch =>
          simp only [hd] at h
          cases hn : (if ch.hasChanges then col.notifyResult ch.changes
                      else Except.ok ()) with
          | error e =>
            simp only [hn] at h
            exact RefreshResponse.noConfusion h
          | ok u =>
            simp only [hn] at h
            cases hs : col.saveError with
            | some e =>
              simp only [hs] at h
              exact RefreshResponse.noConfusion h
            | none =>
              simp only [hs] at h
              exact RefreshResponse.noConfusion h

/-- An effective update time requires one of the two stored time fields. -/
theorem effLastUpdate_fields (c : CacheData) (L : Int)
    (h : effLastUpdate c = some L) :
    c.lastUpdate ≠ none ∨ c.timestamp ≠ none := by
  cases hl : c.lastUpdate with
  | some n => exact Or.inl (fun hc => Option.noConfusion hc)
  | none =>
    simp only [effLastUpdate, hl] at h
    exact Or.inr (by rw [h]; exact fun hc => Option.noConfusion hc)

/-- A firing gate presupposes a loaded record with an effective update time. -/
theorem gate_some_implies (cache : Option CacheData) (now : Int)
    (body : RateLimitBody) (h : refreshGate cache now = some body) :
    ∃ c L, cache = some c ∧ effLastUpdate c = some L := by
  cases cache with
  | none => exact Option.noConfusion h
  | some c =>
    cases he : effLastUpdate c with
    | none =>
      rw [refreshGate_pass_of_eff_none c now he] at h
      exact Option.noConfusion h
    | some L => exact ⟨c, L, rfl, he⟩

/-- C9: a loaded record lacking both the `lastUpdate` and the `timestamp`
field bypasses the rate-limit gate — the upstream fetch is attempted whatever
the current time is, i.e. however recently the record was written — and,
conversely, a 429 can only arise from a loaded record that carries at least
one of those two fields. -/
theorem c9_missing_fields_bypass (col : Collab) (now : Int) (c : CacheData)
    (hload : col.loadError = none)
    (hlu : c.lastUpdate = none) (hts : c.timestamp = none) :
    (refreshRun col now (some c)).2.1.fetchCalled = true ∧
    (∀ cache body, (refreshRun col now cache).1 = .rateLimited body →
      ∃ c0, cache = some c0 ∧ (c0.lastUpdate ≠ none ∨ c0.timestamp ≠ none)) := by
  constructor
  · have he : effLastUpdate c = none := by
      simp only [effLastUpdate, hlu, hts]
    exact fetchCalled_of_gate_none col now _ hload
      (refreshGate_pass_of_eff_none c now he)
  · intro cache body h
    obtain ⟨c0, L, rfl, heff⟩ :=
      gate_some_implies cache now body (gate_of_rateLimited col now cache body h)
    exact ⟨c0, rfl, effLastUpdate_fields c0 L heff⟩

/-- Witness for C9 at a concrete input: a record holding only data, loaded
five milliseconds after epoch, still reaches the upstream fetch. -/
theorem c9_missing_fields_bypass_witness :
    (refreshRun colOk 5 (some cNoTimes)).2.1.fetchCalled = true :=
  (c9_missing_fields_bypass colOk 5 cNoTimes rfl rfl rfl).1

/-- The fully successful refresh path: gate passed, fetch, change detection,
(conditional) notification and save all succeed — the handler answers 200
with the processed data and commits the new record. -/
theorem refreshRun_success (col : Collab) (now : Int) (cache : Option CacheData)
    (d : List ClassItem) (ch : ChangeResult)
    (hload : col.loadError = none) (hgate : refreshGate cache now = none)
    (hfetch : col.fetchResult = .ok d) (hdetect : col.detectResult d = .ok ch)
    (hnotify : (if ch.hasChanges then col.notifyResult ch.changes
                else Except.ok ()) = .ok ())
    (hsave : col.saveError = none) :
    refreshRun col now cache =
      (.ok (d.map col.proc) false now (d.map col.proc).length
          (if ch.hasChanges then some ch.changes else none),
       ⟨true, true, ch.hasChanges⟩, some (savedRecord d now)) := by
  simp only [refreshRun, hload, hgate, hfetch, hdetect, hnotify, hsave]

/-- The record written by a successful refresh has that refresh's time as its
effective update time (even at millisecond 0, where the falsy `lastUpdate`
falls through to the equal `timestamp`). -/
theorem effLastUpdate_savedRecord (d : List ClassItem) (t : Int) :
    effLastUpdate (savedRecord d t) = some t := by
  simp only [effLastUpdate, savedRecord, ite_self]

/-- Any refresh attempted within ten minutes of a committed refresh at `t0`
is rejected and leaves the committed record in place. -/
theorem refreshRun_cooldown (col : Collab) (d : List ClassItem) (t0 t : Int)
    (hload : col.loadError = none) (hlt : t - t0 < 600000) :
    refreshRun col t (some (savedRecord d t0)) =
      (.rateLimited (rlBody t0 t), ⟨false, false, false⟩,
       some (savedRecord d t0)) :=
  refreshRun_rateLimited col t _ _ hload
    (refreshGate_hit _ t0 t (effLastUpdate_savedRecord d t0) hlt)

/-- Sequential executions of the refresh handler at the listed times, each
loading the cache state the previous one left behind (the cache is the only
state shared between requests). -/
def runCalls (col : Collab) : List Int → Option CacheData →
    List (RefreshResponse × RefreshEffects) × Option CacheData
  | [], cache => ([], cache)
  | t :: ts, cache =>
    let r := refreshRun col t cache
    let rest := runCalls col ts r.2.2
    ((r.1, r.2.1) :: rest.1, rest.2)

/-- The `remainingTime.totalSeconds` a response carries (0 for non-429
responses). -/
def totalSecondsOf : RefreshResponse → Int
  | .rateLimited b => b.remainingTime.totalSeconds
  | _ => 0

/-- Calls all within the cooldown window of a committed record at `t0` are
each rejected and never advance the cache. -/
theorem runCalls_cooldown (col : Collab) (d : List ClassItem) (t0 : Int)
    (hload : col.loadError = none) :
    ∀ ts : List Int, (∀ t ∈ ts, t - t0 < 600000) →
      runCalls col ts (some (savedRecord d t0)) =
        (ts.map (fun t => (.rateLimited (rlBody t0 t), ⟨false, false, false⟩)),
         some (savedRecord d t0))
  | [], _ => rfl
  | t :: ts, hb => by
    have h1 := refreshRun_cooldown col d t0 t hload (hb t (List.mem_cons_self t ts))
    have h2 := runCalls_cooldown col d t0 hload ts
      (fun u hu => hb u (List.mem_cons_of_mem t hu))
    simp only [runCalls, h1, h2, List.map]

/-- The later of two in-cooldown refreshes is told a smaller or equal
remaining wait. -/
theorem totalSeconds_antitone (t0 a b : Int) (hab : a < b) :
    (rlBody t0 b).remainingTime.totalSeconds ≤
      (rlBody t0 a).remainingTime.totalSeconds := by
  simp only [rlBody]
  exact Int.ediv_le_ediv (by norm_num) (by omega)

/-- C7: starting from an empty cache, a successful refresh at `t0` followed
by calls at strictly increasing times, all less than ten minutes after `t0`,
makes only the first call fetch upstream — it answers 200 and commits; every
later call answers 429 without fetching, and the reported
`remainingTime.totalSeconds` values decrease monotonically along the
sequence. -/
theorem c7_cooldown_sequence (col : Collab) (t0 : Int) (ts : List Int)
    (d : List ClassItem) (ch : ChangeResult)
    (hload : col.loadError = none) (hfetch : col.fetchResult = .ok d)
    (hdetect : col.detectResult d = .ok ch)
    (hnotify : (if ch.hasChanges then col.notifyResult ch.changes
                else Except.ok ()) = .ok ())
    (hsave : col.saveError = none)
    (hchain : List.Chain' (· < ·) (t0 :: ts))
    (hbound : ∀ t ∈ ts, t - t0 < 600000) :
    (runCalls col (t0 :: ts) none).1 =
      ((.ok (d.map col.proc) false t0 (d.map col.proc).length
          (if ch.hasChanges then some ch.changes else none),
        ⟨true, true, ch.hasChanges⟩) ::
        ts.map (fun t => (.rateLimited (rlBody t0 t), ⟨false, false, false⟩))) ∧
    (∀ r ∈ (runCalls col (t0 :: ts) none).1.tail,
      r.2.fetchCalled = false ∧ ∃ b, r.1 = .rateLimited b) ∧
    List.Chain' (fun x y => totalSecondsOf y.1 ≤ totalSecondsOf x.1)
      (runCalls col (t0 :: ts) none).1.tail := by
  have hfirst := refreshRun_success col t0 none d ch hload rfl hfetch hdetect
    hnotify hsave
  have htail := runCalls_cooldown col d t0 hload ts hbound
  have hrun : (runCalls col (t0 :: ts) none).1 =
      ((.ok (d.map col.proc) false t0 (d.map col.proc).length
          (if ch.hasChanges then some ch.changes else none),
        ⟨true, true, ch.hasChanges⟩) ::
        ts.map (fun t => (.rateLimited (rlBody t0 t), ⟨false, false, false⟩))) := by
    simp only [runCalls, hfirst, htail]
  refine ⟨hrun, ?_, ?_⟩
  · rw [hrun]
    intro r hr
    simp only [List.tail_cons] at hr
    obtain ⟨t, ht, rfl⟩ := List.mem_map.mp hr
    exact ⟨rfl, _, rfl⟩
  · rw [hrun]
    simp only [List.tail_cons]
    rw [List.chain'_map]
    exact List.Chain'.imp
      (fun a b hab => totalSeconds_antitone t0 a b hab) hchain.tail

/-- Witness for C7 at a concrete input: a successful refresh at millisecond 0
followed by calls one and two minutes later. -/
theorem c7_cooldown_sequence_witness :
    (runCalls colOk [0, 60000, 120000] none).1 =
      ((.ok [1, 2] false 0 2 none, ⟨true, true, false⟩) ::
        [((.rateLimited (rlBody 0 60000) : RefreshResponse),
          (⟨false, false, false⟩ : RefreshEffects)),
         (.rateLimited (rlBody 0 120000), ⟨false, false, false⟩)]) ∧
    (rlBody 0 60000).remainingTime.totalSeconds = 540 ∧
    (rlBody 0 120000).remainingTime.totalSeconds = 480 := by
  have h := c7_cooldown_sequence colOk 0 [60000, 120000] [1, 2] ⟨false, []⟩
    rfl rfl rfl rfl rfl (by simp [List.chain'_cons]) (by decide)
  refine ⟨?_, by decide, by decide⟩
  rw [h.1]
  rfl

/-- Phases of one in-flight refresh handler execution, delimited at its
`await` points — the JS event loop can interleave another request's segments
at each of them, and on the serverless platform two concurrent invocations
may even run in parallel instances.  `fetching` means
`fetchFreshTimetableData` has been invoked and its promise is still pending;
the post-fetch tail (detect, save, respond) is one segment here, with change
detection finding no changes and all collaborators succeeding, which is all
C4 needs. -/
inductive RPhase where
  | start
  | gate (loaded : Option CacheData)
  | fetching
  | saving (fresh : List ClassItem)
  | finished (r : RefreshResponse)
deriving Repr, DecidableEq

/-- Two concurrent refresh executions over the shared cache store. -/
structure Sys where
  cache : Option CacheData
  th1 : RPhase
  th2 : RPhase
deriving Repr, DecidableEq

/-- One atomic segment of a single refresh execution at time `now` whose
fetch resolves to `fresh`: load the shared cache; evaluate the gate on the
value loaded; let the fetch resolve; then save and respond.  Returns the new
phase and the new shared cache state. -/
def threadStep (now : Int) (fresh : List ClassItem)
    (proc : ClassItem → ClassItem) :
    RPhase → Option CacheData → RPhase × Option CacheData
  | .start, cache => (.gate cache, cache)
  | .gate loaded, cache =>
    match refreshGate loaded now with
    | some body => (.finished (.rateLimited body), cache)
    | none => (.fetching, cache)
  | .fetching, cache => (.saving fresh, cache)
  | .saving f, _ =>
    (.finished (.ok (f.map proc) false now (f.map proc).length none),
     some (savedRecord f now))
  | .finished r, cache => (.finished r, cache)

/-- Interleaved execution of the two requests: `true` advances execution 1
(running at time `now1`), `false` advances execution 2 (time `now2`); both
fetches resolve to `d`. -/
def sysStep (now1 now2 : Int) (d : List ClassItem)
    (proc : ClassItem → ClassItem) (s : Sys) (pick : Bool) : Sys :=
  match pick with
  | true =>
    let r := threadStep now1 d proc s.th1 s.cache
    { s with th1 := r.1, cache := r.2 }
  | false =>
    let r := threadStep now2 d proc s.th2 s.cache
    { s with th2 := r.1, cache := r.2 }

/-- Run a schedule of interleaving choices from a system state. -/
def sysRun (now1 now2 : Int) (d : List ClassItem)
    (proc : ClassItem → ClassItem) (sched : List Bool) (s : Sys) : Sys :=
  sched.foldl (sysStep now1 now2 d proc) s

/-- Counterexample to C4 as stated: the handler takes no lock, so with an
empty cache the interleaving in which both executions load the cache and pass
the gate before either fetch resolves leaves both executions in the
`fetching` phase — two simultaneous `fetchFreshTimetableData` calls in
flight; the second call neither waited for the first's result nor was
rejected as rate-limited. -/
theorem c4_counterexample :
    (sysRun 0 0 [] id [true, true, false, false]
        ⟨none, .start, .start⟩).th1 = .fetching ∧
    (sysRun 0 0 [] id [true, true, false, false]
        ⟨none, .start, .start⟩).th2 = .fetching := ⟨rfl, rfl⟩

/-- C4 (amended): the code provides no at-most-one-in-flight guarantee — two
executions that both load before either commits both fetch (see the
counterexample); what does hold is post-commit admission control: a second
execution that runs entirely after the first has committed at `now1`, within
the cooldown, is rejected as rate-limited and never reaches the fetching
phase. -/
theorem c4_sequential_second_rejected (now1 now2 : Int) (d : List ClassItem)
    (proc : ClassItem → ClassItem) (h : now2 - now1 < 600000) :
    (sysRun now1 now2 d proc [true, true, true, true, false, false]
        ⟨none, .start, .start⟩).th1 =
      .finished (.ok (d.map proc) false now1 (d.map proc).length none) ∧
    (sysRun now1 now2 d proc [true, true, true, true, false, false]
        ⟨none, .start, .start⟩).th2 =
      .finished (.rateLimited (rlBody now1 now2)) := by
  have hgate1 : refreshGate none now1 = none := rfl
  have hgate2 : refreshGate (some (savedRecord d now1)) now2 =
      some (rlBody now1 now2) :=
    refreshGate_hit _ now1 now2 (effLastUpdate_savedRecord d now1) h
  constructor
  · rfl
  · simp only [sysRun, List.foldl, sysStep, threadStep, hgate1, hgate2]

/-- Witness for C4's amended claim at a concrete input: the second execution,
run five minutes after the first committed, is rejected. -/
theorem c4_sequential_second_rejected_witness :
    (sysRun 0 300000 [] id [true, true, true, true, false, false]
        ⟨none, .start, .start⟩).th2 =
      .finished (.rateLimited (rlBody 0 300000)) :=
  (c4_sequential_second_rejected 0 300000 [] id (by decide)).2

end LpuTimetable
